import Mathlib

/-!
Shallow embedding of the social-graph mutation and notification fan-out core
of the `social_media_api` Django application: the `PostViewSet.like`/`unlike`
actions and `CommentViewSet.perform_create` from `posts/views.py`, the
`CustomUserViewSet.follow`/`unfollow` actions from `accounts/views.py`, the
`NotificationViewSet.mark_all_as_read` action from `notifications/views.py`,
and the data model from `posts/models.py`, `accounts/models.py` and
`notifications/models.py`.

Users are identified by their primary keys (`Nat`).  The ORM tables become
lists inside a single `State` record; the directed follow relation (the
`CustomUser.followers` many-to-many field with `symmetrical=False`) becomes a
list of (follower, followee) pairs, and Django's `ManyRelatedManager.add` is
modelled as an insert that is a no-op when the row already exists, which is
exactly the SQL behaviour of `add` on a through table with its uniqueness
constraint.  `Like.Meta.unique_together = ('user', 'post')` is modelled by an
explicit membership test whose failure corresponds to the `IntegrityError`
the view catches.  DRF responses become a status code plus the `detail`
string the view puts in the body.
-/

/-- A row of `posts.models.Post` (timestamps omitted: no claim mentions them). -/
structure Post where
  id : Nat
  author : Nat
  title : String
  content : String
deriving Repr, DecidableEq

/-- A row of `posts.models.Comment`. -/
structure Comment where
  id : Nat
  post : Nat
  author : Nat
  content : String
deriving Repr, DecidableEq

/-- The polymorphic `GenericForeignKey` target of `notifications.models.Notification`:
a `ContentType` together with an `object_id`. -/
inductive Target where
  | user : Nat → Target
  | post : Nat → Target
  | comment : Nat → Target
deriving Repr, DecidableEq

/-- A row of `notifications.models.Notification`.  `is_read` defaults to
`false` on creation (`models.BooleanField(default=False)`). -/
structure Notification where
  recipient : Nat
  actor : Nat
  verb : String
  target : Target
  is_read : Bool
deriving Repr, DecidableEq

/-- An HTTP response as produced by the DRF views: status code and the
`detail` message of the JSON body. -/
structure Response where
  status : Nat
  detail : String
deriving Repr, DecidableEq

/-- The persistent store.  `follows` holds directed (follower, followee)
edges of the `CustomUser.followers` M2M through table; `likes` holds
(user, post) pairs of the `Like` table; `next_comment_id` is the
auto-increment primary-key counter of the `Comment` table.  Notification
lists are kept newest first, matching `ordering = ('-timestamp',)`. -/
structure State where
  users : List Nat
  follows : List (Nat × Nat)
  posts : List Post
  likes : List (Nat × Nat)
  comments : List Comment
  notifications : List Notification
  next_comment_id : Nat
deriving Repr, DecidableEq

/-- The request credential resolved by DRF authentication: either no
credential (`request.user` is anonymous) or an authenticated user id. -/
inductive Auth where
  | anon
  | user : Nat → Auth
deriving Repr, DecidableEq

/-- `create_notification(recipient, actor, verb, target)` from
`posts/views.py` (the copy in `accounts/views.py` is identical): a single
`Notification.objects.create` with `is_read` left at its default. -/
def create_notification (s : State) (recipient actor : Nat) (verb : String)
    (target : Target) : State :=
  { s with notifications :=
      { recipient := recipient, actor := actor, verb := verb, target := target,
        is_read := false } :: s.notifications }

/-- `self.get_object()` for `PostViewSet`: `Post.objects.get(pk=pk)` on the
base queryset, `none` when the lookup raises `Http404`. -/
def get_post (s : State) (pk : Nat) : Option Post :=
  s.posts.find? (fun p => p.id == pk)

/-- `PostViewSet.like` (`POST /posts/{pk}/like/`).  The caller is already
authenticated (write access under `IsAuthenticatedOrReadOnly`).  A missing
post makes `get_object` raise `Http404`, rendered by DRF as a 404 response.
`Like.objects.create` raises `IntegrityError` when the (user, post) pair
already exists (`unique_together`), which the view maps to a 400 response. -/
def like (s : State) (pk user : Nat) : State × Response :=
  match get_post s pk with
  | none => (s, { status := 404, detail := "Not found." })
  | some post =>
    if post.author == user then
      (s, { status := 400, detail := "You cannot like your own post." })
    else if s.likes.contains (user, post.id) then
      (s, { status := 400, detail := "You have already liked this post." })
    else
      let liked := { s with likes := (user, post.id) :: s.likes }
      let notified :=
        create_notification liked post.author user "liked your post"
          (Target.post post.id)
      (notified, { status := 201, detail := "Post like successfully." })

/-- `PostViewSet.unlike` (`POST /posts/{pk}/unlike/`).
`Like.objects.filter(post=post, user=user).delete()` always runs; when the
deleted count is 0 the view returns a 400 response, and on the success path
the Python function falls off the end and returns `None` — modelled as
`none` — so no HTTP response is produced (DRF then fails the request). -/
def unlike (s : State) (pk user : Nat) : State × Option Response :=
  match get_post s pk with
  | none => (s, some { status := 404, detail := "Not found." })
  | some post =>
    let deleted_count :=
      (s.likes.filter (fun l => l == (user, post.id))).length
    let deleted :=
      { s with likes := s.likes.filter (fun l => l != (user, post.id)) }
    if deleted_count == 0 then
      (deleted, some { status := 400, detail := "You have not liked this post yet." })
    else
      (deleted, none)

/-- The outcome of `CommentViewSet.perform_create`: either the DRF
`ValidationError` raised when the post lookup fails, or normal completion
(the view's own return value is discarded by `CreateModelMixin.create`). -/
inductive CreateCommentResult where
  | validation_error : String → CreateCommentResult
  | created : CreateCommentResult
deriving Repr, DecidableEq

/-- `rest_framework.exceptions.ValidationError.status_code`: DRF renders a
`ValidationError` as HTTP 400. -/
def ValidationError.status_code : Nat := 400

/-- `CommentViewSet.perform_create`.  `post_pk` is `self.kwargs.get('post_pk')`
from the nested route.  A failed `Post.objects.get` raises
`ValidationError({'post': 'Post not found!'})`.  Then `serializer.save` is
called twice: the first call creates the `Comment` row; on the second call
`serializer.instance` is already set, so DRF performs an `update` of that
same row with the same validated data (no second row).  A notification is
created only when the commenter differs from the post's author. -/
def perform_create (s : State) (post_pk : Option Nat) (user : Nat)
    (content : String) : State × CreateCommentResult :=
  match post_pk.bind (fun pk => get_post s pk) with
  | none => (s, CreateCommentResult.validation_error "Post not found!")
  | some post =>
    let c : Comment :=
      { id := s.next_comment_id, post := post.id, author := user,
        content := content }
    let saved :=
      { s with comments := c :: s.comments,
               next_comment_id := s.next_comment_id + 1 }
    let saved2 :=
      { saved with comments := saved.comments.map (fun x =>
          if x.id == c.id then
            { x with post := post.id, author := user, content := content }
          else x) }
    let notified :=
      if post.author != user then
        create_notification saved2 post.author user "commented on your post"
          (Target.comment c.id)
      else saved2
    (notified, CreateCommentResult.created)

/-- The comment-creation endpoint (`POST /posts/{post_pk}/comments/`):
`CreateModelMixin.create` runs `perform_create` and, when no exception was
raised, responds 201 with the serialized comment; a `ValidationError`
becomes a response with `ValidationError.status_code`. -/
def comments_create (s : State) (post_pk : Option Nat) (user : Nat)
    (content : String) : State × Response :=
  match perform_create s post_pk user content with
  | (s2, CreateCommentResult.validation_error d) =>
    (s2, { status := ValidationError.status_code, detail := d })
  | (s2, CreateCommentResult.created) =>
    (s2, { status := 201, detail := "" })

/-- `CustomUserViewSet.follow` (`POST /users/{pk}/follow/`, `IsAuthenticated`).
`get_object` failure is caught and mapped to a 404 response; a self-follow
is rejected with 400; otherwise `follower.following.add(user_to_follow)`
inserts the directed edge unless it already exists (M2M `add` is a no-op on
an existing row), and a "started following you" notification is created
unconditionally on this path, with the follower as both actor and target. -/
def follow (s : State) (pk follower : Nat) : State × Response :=
  if s.users.contains pk then
    if follower == pk then
      (s, { status := 400, detail := "You cannot follow yourself!" })
    else
      let added :=
        if s.follows.contains (follower, pk) then s
        else { s with follows := s.follows ++ [(follower, pk)] }
      let notified :=
        create_notification added pk follower "started following you"
          (Target.user follower)
      (notified, { status := 200, detail := "Successfully followed user." })
  else
    (s, { status := 404, detail := "User not found!" })

/-- `CustomUserViewSet.unfollow` (`POST /users/{pk}/unfollow/`).
`follower.following.remove(user_to_unfollow)` deletes the edge rows if
present; removing an absent edge is a no-op and the view still responds
200. -/
def unfollow (s : State) (pk follower : Nat) : State × Response :=
  if s.users.contains pk then
    ({ s with follows := s.follows.filter (fun e => e != (follower, pk)) },
     { status := 200, detail := "Successfully unfollowed user." })
  else
    (s, { status := 404, detail := "User nto found!" })

/-- `NotificationViewSet.mark_all_as_read` (`POST /notifications/mark_all_as_read/`).
`Notification.objects.filter(recipient=request.user, is_read=False)
.update(is_read=True)` returns the number of rows updated, which the view
interpolates into the response detail.  The middle component is that
count. -/
def mark_all_as_read (s : State) (user : Nat) : State × Nat × Response :=
  let count :=
    (s.notifications.filter (fun n => n.recipient == user && n.is_read == false)).length
  let updated := s.notifications.map (fun n =>
    if n.recipient == user && n.is_read == false then { n with is_read := true }
    else n)
  ({ s with notifications := updated },
   count,
   { status := 200,
     detail := "Marked " ++ toString count ++ " notifications as read." })

/-- `PostViewSet`'s `update` (PUT, from `ModelViewSet`): the only permission
class is `IsAuthenticatedOrReadOnly`, so an anonymous write is rejected 401
and any authenticated user passes both `has_permission` and the default
`has_object_permission`; there is no owner check.  The serializer marks
`author` read-only, so an update rewrites `title` and `content` only. -/
def post_update (s : State) (pk : Nat) (auth : Auth)
    (title content : String) : State × Response :=
  match auth with
  | Auth.anon =>
    (s, { status := 401, detail := "Authentication credentials were not provided." })
  | Auth.user _ =>
    match get_post s pk with
    | none => (s, { status := 404, detail := "Not found." })
    | some post =>
      let posts := s.posts.map (fun p =>
        if p.id == post.id then { p with title := title, content := content }
        else p)
      ({ s with posts := posts }, { status := 200, detail := "" })

/-- `PostViewSet`'s `destroy` (DELETE, from `ModelViewSet`): same permission
handling as `post_update`; deletion removes the post row and answers 204. -/
def post_destroy (s : State) (pk : Nat) (auth : Auth) : State × Response :=
  match auth with
  | Auth.anon =>
    (s, { status := 401, detail := "Authentication credentials were not provided." })
  | Auth.user _ =>
    match get_post s pk with
    | none => (s, { status := 404, detail := "Not found." })
    | some post =>
      ({ s with posts := s.posts.filter (fun p => p.id != post.id) },
       { status := 204, detail := "" })

/-- Number of `Like` rows for a given (user, post) pair. -/
def likeCount (s : State) (user pk : Nat) : Nat :=
  (s.likes.filter (fun l => l == (user, pk))).length

/-- Number of notifications matching a (recipient, actor, verb, target)
pattern. -/
def notifCount (s : State) (recipient actor : Nat) (verb : String)
    (target : Target) : Nat :=
  (s.notifications.filter (fun n =>
    n.recipient == recipient && n.actor == actor && n.verb == verb &&
    n.target == target)).length

/-- Number of directed follow edges from `a` to `b`. -/
def edgeCount (s : State) (a b : Nat) : Nat :=
  (s.follows.filter (fun e => e == (a, b))).length

/-- `n` successive invocations of `follow s pk follower`, discarding the
responses. -/
def followIter : Nat → State → Nat → Nat → State
  | 0, s, _, _ => s
  | n + 1, s, pk, follower => followIter n (follow s pk follower).1 pk follower

/-! General list lemmas shared by the proofs below. -/

theorem filter_beq_nil {α} [BEq α] [LawfulBEq α] (l : List α) (x : α)
    (h : l.contains x = false) : l.filter (fun y => y == x) = [] := by
  rw [List.filter_eq_nil_iff]
  intro a ha
  simp only [beq_iff_eq]
  rintro rfl
  simp at h
  exact h ha

theorem filter_bne_self {α} [BEq α] [LawfulBEq α] (l : List α) (x : α)
    (h : l.contains x = false) : l.filter (fun y => y != x) = l := by
  rw [List.filter_eq_self]
  intro a ha
  simp only [bne_iff_ne, ne_eq]
  rintro rfl
  simp at h
  exact h ha

/-- A two-user store with a single post authored by user 1, used to
instantiate the universally quantified theorems below. -/
def exState : State :=
  { users := [1, 2], follows := [],
    posts := [{ id := 1, author := 1, title := "t", content := "c" }],
    likes := [], comments := [], notifications := [], next_comment_id := 0 }

/-- C1 counterexample: in `exState`, post 1 is authored by user 1, yet the
authenticated non-owner user 2 updates it (HTTP 200, the row is rewritten)
and deletes it (HTTP 204, the row is gone) — no `PermissionError` (403) is
raised and the post does not stay unchanged, so the claim as stated is
false. -/
theorem nonOwner_update_succeeds_cex :
    (post_update exState 1 (Auth.user 2) "hacked" "owned").2.status = 200 ∧
    (post_update exState 1 (Auth.user 2) "hacked" "owned").1.posts
      = [{ id := 1, author := 1, title := "hacked", content := "owned" }] ∧
    (post_destroy exState 1 (Auth.user 2)).2.status = 204 ∧
    (post_destroy exState 1 (Auth.user 2)).1.posts = [] := by decide

/-- C1 (amended): `PostViewSet` enforces only `IsAuthenticatedOrReadOnly`:
an unauthenticated update or delete fails with 401 and leaves the store
unchanged, while ANY authenticated user — owner or not — successfully
updates (200) or deletes (204) an existing post; there is no owner-only
`PermissionError`. -/
theorem post_mutation_no_owner_check (s : State) (pk u : Nat)
    (title content : String) (post : Post) (hp : get_post s pk = some post) :
    (post_update s pk (Auth.user u) title content).2.status = 200 ∧
    (post_destroy s pk (Auth.user u)).2.status = 204 ∧
    post_update s pk Auth.anon title content
      = (s, { status := 401,
              detail := "Authentication credentials were not provided." }) ∧
    post_destroy s pk Auth.anon
      = (s, { status := 401,
              detail := "Authentication credentials were not provided." }) := by
  simp [post_update, post_destroy, hp]

/-- C1 witness: the amended theorem instantiated in `exState` at post 1 and
the non-owner user 2. -/
theorem post_mutation_no_owner_check_witness :
    get_post exState 1 = some { id := 1, author := 1, title := "t", content := "c" } ∧
    ((post_update exState 1 (Auth.user 2) "a" "b").2.status = 200 ∧
     (post_destroy exState 1 (Auth.user 2)).2.status = 204 ∧
     post_update exState 1 Auth.anon "a" "b"
       = (exState, { status := 401,
                     detail := "Authentication credentials were not provided." }) ∧
     post_destroy exState 1 Auth.anon
       = (exState, { status := 401,
                     detail := "Authentication credentials were not provided." })) :=
  ⟨by decide,
   post_mutation_no_owner_check exState 1 2 "a" "b"
     { id := 1, author := 1, title := "t", content := "c" } (by decide)⟩

/-- C2 counterexample: creating a comment under the nonexistent post id 99
answers HTTP 400 (the DRF `ValidationError` status), not the 404 the claim
requires; no comment is created (the store is unchanged). -/
theorem comment_missing_post_cex :
    (comments_create exState (some 99) 2 "hi").2.status = 400 ∧
    (comments_create exState (some 99) 2 "hi").2.status ≠ 404 ∧
    (comments_create exState (some 99) 2 "hi").1 = exState := by decide

/-- C2 (amended): when the `post_pk` of the nested route resolves to no
existing post, comment creation fails with `ValidationError` — rendered by
DRF as HTTP 400 with detail "Post not found!", not 404 — and the store is
left unchanged (no comment record is created). -/
theorem comments_create_missing_post (s : State) (post_pk : Option Nat)
    (user : Nat) (content : String)
    (h : post_pk.bind (fun pk => get_post s pk) = none) :
    comments_create s post_pk user content
      = (s, { status := 400, detail := "Post not found!" }) := by
  simp [comments_create, perform_create, h, ValidationError.status_code]

/-- C2 witness: the amended theorem instantiated at post id 99, absent from
`exState`. -/
theorem comments_create_missing_post_witness :
    ((some 99 : Option Nat)).bind (fun pk => get_post exState pk) = none ∧
    comments_create exState (some 99) 2 "hi"
      = (exState, { status := 400, detail := "Post not found!" }) :=
  ⟨by decide, comments_create_missing_post exState (some 99) 2 "hi" (by decide)⟩

/-- A store like `exState` in which user 2 has already liked post 1. -/
def exLiked : State :=
  { users := [1, 2], follows := [],
    posts := [{ id := 1, author := 1, title := "t", content := "c" }],
    likes := [(2, 1)], comments := [], notifications := [],
    next_comment_id := 0 }

/-- C3: evaluation at the failing input.  User 2 has liked post 1; `unlike`
deletes the Like row and creates no notification, but the view body falls
off the end and yields no HTTP response at all (`none`) — its success
`Response` statement is stranded at the end of
`CommentViewSet.perform_create` — so no 200 success report is produced,
contradicting the claim (and the view's own `extend_schema` docs).  When no
Like exists, the view does answer 400 "You have not liked this post yet.". -/
theorem unlike_success_returns_none :
    (unlike exLiked 1 2).2 = none ∧
    (unlike exLiked 1 2).1.likes = [] ∧
    (unlike exLiked 1 2).1.notifications = [] ∧
    (unlike exState 1 2).2
      = some { status := 400, detail := "You have not liked this post yet." } := by
  decide

/-- C4: once `likePost(P,U)` has succeeded (201), a second call hits the
`unique_together` constraint and fails 400 "You have already liked this
post." leaving exactly one Like for (U, P); after `unlikePost(P,U)` removes
it, `likePost(P,U)` succeeds (201) again. -/
theorem like_twice_unlike_like
    (s : State) (pk user : Nat) (post : Post)
    (hp : get_post s pk = some post)
    (hauthor : post.author ≠ user)
    (hnew : s.likes.contains (user, post.id) = false) :
    (like s pk user).2.status = 201 ∧
    (like (like s pk user).1 pk user).2
      = { status := 400, detail := "You have already liked this post." } ∧
    likeCount (like (like s pk user).1 pk user).1 user post.id = 1 ∧
    likeCount (unlike (like (like s pk user).1 pk user).1 pk user).1
      user post.id = 0 ∧
    (like (unlike (like (like s pk user).1 pk user).1 pk user).1 pk user).2.status
      = 201 := by
  have hauthor' : (post.author == user) = false := by
    simpa using hauthor
  have hp' : s.posts.find? (fun p => p.id == pk) = some post := hp
  have hnew' : (user, post.id) ∉ s.likes := by simpa using hnew
  have hf1 := filter_beq_nil s.likes (user, post.id) hnew
  have hf2 := filter_bne_self s.likes (user, post.id) hnew
  simp [like, unlike, likeCount, create_notification, get_post, hp', hauthor',
    hnew', hf1, hf2]

/-- C4 witness: user 2 on post 1 of `exState`. -/
theorem like_twice_unlike_like_witness :
    get_post exState 1 = some { id := 1, author := 1, title := "t", content := "c" } ∧
    (1 : Nat) ≠ 2 ∧
    exState.likes.contains (2, 1) = false ∧
    ((like exState 1 2).2.status = 201 ∧
     (like (like exState 1 2).1 1 2).2
       = { status := 400, detail := "You have already liked this post." } ∧
     likeCount (like (like exState 1 2).1 1 2).1 2 1 = 1 ∧
     likeCount (unlike (like (like exState 1 2).1 1 2).1 1 2).1 2 1 = 0 ∧
     (like (unlike (like (like exState 1 2).1 1 2).1 1 2).1 1 2).2.status = 201) :=
  ⟨by decide, by decide, by decide,
   like_twice_unlike_like exState 1 2
     { id := 1, author := 1, title := "t", content := "c" }
     (by decide) (by decide) (by decide)⟩

/-- C5: a successful `createComment(post, author, content)` creates exactly
one `Comment` row (the second `serializer.save` only rewrites that same
row), and creates one "commented on your post" notification — recipient the
post's author, actor the commenter, target the new comment — exactly when
the commenter is not the post's author; a self-comment creates no
notification. -/
theorem comment_create_fanout
    (s : State) (pk user : Nat) (content : String) (post : Post)
    (hp : get_post s pk = some post)
    (hfresh : ∀ c ∈ s.comments, c.id ≠ s.next_comment_id) :
    (perform_create s (some pk) user content).2 = CreateCommentResult.created ∧
    (perform_create s (some pk) user content).1.comments
      = { id := s.next_comment_id, post := post.id, author := user,
          content := content } :: s.comments ∧
    (user ≠ post.author →
      (perform_create s (some pk) user content).1.notifications
        = { recipient := post.author, actor := user,
            verb := "commented on your post",
            target := Target.comment s.next_comment_id,
            is_read := false } :: s.notifications) ∧
    (user = post.author →
      (perform_create s (some pk) user content).1.notifications
        = s.notifications) := by
  have hmap : ∀ l : List Comment, (∀ c ∈ l, c.id ≠ s.next_comment_id) →
      l.map (fun x =>
        if x.id = s.next_comment_id then
          { id := x.id, post := post.id, author := user, content := content }
        else x) = l := by
    intro l
    induction l with
    | nil => intro _; rfl
    | cons a t ih =>
      intro h
      have ha : ¬ a.id = s.next_comment_id := h a (by simp)
      simp only [List.map_cons, if_neg ha, List.cons.injEq, true_and]
      exact ih (fun c hc => h c (by simp [hc]))
  have hmap' := hmap s.comments hfresh
  refine ⟨?_, ?_, ?_, ?_⟩
  · simp [perform_create, hp]
  · by_cases hb : post.author = user
    · simp [perform_create, hp, hb, hmap']
    · simp [perform_create, hp, hb, hmap', create_notification]
  · intro hne
    have h1 : ¬ post.author = user := fun h => hne h.symm
    simp [perform_create, hp, h1, create_notification]
  · intro heq
    simp [perform_create, hp, heq.symm]

/-- C5 witness: user 2 comments on post 1 (authored by user 1) of
`exState`, and user 1 self-comments. -/
theorem comment_create_fanout_witness :
    get_post exState 1 = some { id := 1, author := 1, title := "t", content := "c" } ∧
    (∀ c ∈ exState.comments, c.id ≠ exState.next_comment_id) ∧
    ((perform_create exState (some 1) 2 "hey").2 = CreateCommentResult.created ∧
     (perform_create exState (some 1) 2 "hey").1.comments
       = [{ id := 0, post := 1, author := 2, content := "hey" }] ∧
     ((2 : Nat) ≠ 1 →
       (perform_create exState (some 1) 2 "hey").1.notifications
         = [{ recipient := 1, actor := 2, verb := "commented on your post",
              target := Target.comment 0, is_read := false }]) ∧
     ((2 : Nat) = 1 →
       (perform_create exState (some 1) 2 "hey").1.notifications = [])) :=
  ⟨by decide, by decide,
   comment_create_fanout exState 1 2 "hey"
     { id := 1, author := 1, title := "t", content := "c" }
     (by decide) (by decide)⟩

/-- C6: a successful `likePost(P,U)` with `U ≠ P.author` produces, in a
store previously holding no such notification, exactly one notification
with recipient = P.author, actor = U, verb "liked your post" and target the
post P. -/
theorem like_creates_notification
    (s : State) (pk user : Nat) (post : Post)
    (hp : get_post s pk = some post)
    (hauthor : post.author ≠ user)
    (hnew : s.likes.contains (user, post.id) = false)
    (h0 : notifCount s post.author user "liked your post" (Target.post post.id)
      = 0) :
    (like s pk user).2.status = 201 ∧
    notifCount (like s pk user).1 post.author user "liked your post"
      (Target.post post.id) = 1 := by
  have hauthor' : (post.author == user) = false := by
    simpa using hauthor
  have hnew' : (user, post.id) ∉ s.likes := by simpa using hnew
  have h0' : (s.notifications.filter (fun n =>
      n.recipient == post.author && n.actor == user &&
      n.verb == "liked your post" && n.target == Target.post post.id)).length
        = 0 := h0
  simp [like, notifCount, create_notification, hp, hauthor', hnew', h0']

theorem markRead_all_read (l : List Notification) (R : Nat) :
    ∀ n ∈ l.map (fun n =>
      if n.recipient == R && n.is_read == false then { n with is_read := true }
      else n), n.recipient = R → n.is_read = true := by
  intro n hn hr
  rcases List.mem_map.mp hn with ⟨m, hm, rfl⟩
  by_cases hc : (m.recipient == R && m.is_read == false) = true
  · rw [if_pos hc]
  · rw [if_neg hc] at hr ⊢
    cases hb : m.is_read
    · exact absurd (by simp [hr, hb]) hc
    · rfl

theorem markRead_frame (l : List Notification) (R : Nat) :
    (l.map (fun n =>
      if n.recipient == R && n.is_read == false then { n with is_read := true }
      else n)).filter (fun n => n.recipient != R)
      = l.filter (fun n => n.recipient != R) := by
  induction l with
  | nil => rfl
  | cons a t ih =>
    simp only [List.map_cons, List.filter_cons]
    by_cases hr : a.recipient = R
    · have h1 : ((if a.recipient == R && a.is_read == false then
          { a with is_read := true } else a).recipient != R) = false := by
        by_cases hc : (a.recipient == R && a.is_read == false) = true
        · rw [if_pos hc]; simp [hr]
        · rw [if_neg hc]; simp [hr]
      have h2 : (a.recipient != R) = false := by simp [hr]
      rw [h1, h2, if_neg (show ¬ (false = true) by simp),
        if_neg (show ¬ (false = true) by simp), ih]
    · have hc : (a.recipient == R && a.is_read == false) = false := by
        simp [hr]
      have ht : (a.recipient != R) = true := by simp [hr]
      rw [hc, if_neg (show ¬ (false = true) by simp), if_pos ht, if_pos ht, ih]

theorem markRead_none_unread (l : List Notification) (R : Nat) :
    (l.map (fun n =>
      if n.recipient == R && n.is_read == false then { n with is_read := true }
      else n)).filter (fun n => n.recipient == R && n.is_read == false) = [] := by
  rw [List.filter_eq_nil_iff]
  intro n hn
  rcases List.mem_map.mp hn with ⟨m, hm, rfl⟩
  by_cases hc : (m.recipient == R && m.is_read == false) = true
  · rw [if_pos hc]; simp
  · rw [if_neg hc]; exact fun h => hc (by simpa using h)

/-- C7: `markAllRead(R)` leaves every notification of recipient R read,
leaves the notifications of every other recipient entirely unchanged (same
rows, all fields, in order), returns the number of rows it flipped (the
previously unread ones of R), and an immediately repeated call returns 0. -/
theorem mark_all_as_read_spec (s : State) (R : Nat) :
    (∀ n ∈ (mark_all_as_read s R).1.notifications,
      n.recipient = R → n.is_read = true) ∧
    (mark_all_as_read s R).1.notifications.filter (fun n => n.recipient != R)
      = s.notifications.filter (fun n => n.recipient != R) ∧
    (mark_all_as_read s R).2.1
      = (s.notifications.filter
          (fun n => n.recipient == R && n.is_read == false)).length ∧
    (mark_all_as_read (mark_all_as_read s R).1 R).2.1 = 0 := by
  refine ⟨markRead_all_read s.notifications R, markRead_frame s.notifications R,
    rfl, ?_⟩
  show ((s.notifications.map (fun n =>
      if n.recipient == R && n.is_read == false then { n with is_read := true }
      else n)).filter
        (fun n => n.recipient == R && n.is_read == false)).length = 0
  rw [markRead_none_unread]
  rfl

theorem contains_true_pos {α} [BEq α] [LawfulBEq α] (l : List α) (x : α)
    (h : l.contains x = true) : 0 < (l.filter (fun y => y == x)).length := by
  have hx : x ∈ l := by simpa using h
  exact List.length_pos_of_mem (List.mem_filter.mpr ⟨hx, by simp⟩)

/-- C8: with A ≠ B and B resolvable, `follow(A,B)` twice leaves exactly one
directed A→B edge in the store (the second add of the existing M2M row is a
no-op), and the second call still answers 200, not an error. -/
theorem follow_follow_single_edge
    (s : State) (A B : Nat) (hAB : A ≠ B) (hB : s.users.contains B = true)
    (h01 : edgeCount s A B ≤ 1) :
    edgeCount (follow (follow s B A).1 B A).1 A B = 1 ∧
    (follow (follow s B A).1 B A).2.status = 200 := by
  have hB' : B ∈ s.users := by simpa using hB
  by_cases hc : (A, B) ∈ s.follows
  · have hct : s.follows.contains (A, B) = true := by simpa using hc
    have h1 : 0 < edgeCount s A B := contains_true_pos s.follows (A, B) hct
    have he : (s.follows.filter (fun y => y == (A, B))).length = 1 := by
      have h2 : edgeCount s A B = 1 := by omega
      exact h2
    simp [follow, edgeCount, hB', hAB, hc, create_notification, he]
  · have hcf : s.follows.contains (A, B) = false := by simpa using hc
    have hf := filter_beq_nil s.follows (A, B) hcf
    simp [follow, edgeCount, hB', hAB, hc, create_notification,
      List.filter_append, hf]

/-- C8 witness: user 2 follows user 1 twice in `exState`. -/
theorem follow_follow_single_edge_witness :
    (2 : Nat) ≠ 1 ∧ exState.users.contains 1 = true ∧
    edgeCount exState 2 1 ≤ 1 ∧
    (edgeCount (follow (follow exState 1 2).1 1 2).1 2 1 = 1 ∧
     (follow (follow exState 1 2).1 1 2).2.status = 200) :=
  ⟨by decide, by decide, by decide,
   follow_follow_single_edge exState 2 1 (by decide) (by decide) (by decide)⟩

/-- C9: `follow(A,A)` on an existing user A answers 400 "You cannot follow
yourself!" and leaves the store untouched (no edge, no notification);
moreover `follow` and `unfollow` preserve the invariant that no user
follows themself. -/
theorem follow_self_rejected (s : State) (A : Nat)
    (hA : s.users.contains A = true) :
    follow s A A = (s, { status := 400, detail := "You cannot follow yourself!" }) ∧
    (∀ t : State, ∀ pk u : Nat,
      (∀ v : Nat, (v, v) ∉ t.follows) →
      ∀ v : Nat, (v, v) ∉ (follow t pk u).1.follows) ∧
    (∀ t : State, ∀ pk u : Nat,
      (∀ v : Nat, (v, v) ∉ t.follows) →
      ∀ v : Nat, (v, v) ∉ (unfollow t pk u).1.follows) := by
  have hA' : A ∈ s.users := by simpa using hA
  refine ⟨by simp [follow, hA'], ?_, ?_⟩
  · intro t pk u hinv v
    by_cases h1 : pk ∈ t.users
    · by_cases h2 : u = pk
      · simp only [follow]
        rw [if_pos (by simpa using h1), if_pos (by simpa using h2)]
        exact hinv v
      · by_cases h3 : (u, pk) ∈ t.follows
        · simp only [follow]
          rw [if_pos (by simpa using h1),
            if_neg (by simpa using h2 : ¬ (u == pk) = true),
            if_pos (by simpa using h3 : t.follows.contains (u, pk) = true)]
          exact hinv v
        · simp only [follow]
          rw [if_pos (by simpa using h1),
            if_neg (by simpa using h2 : ¬ (u == pk) = true),
            if_neg (by simpa using h3 : ¬ t.follows.contains (u, pk) = true)]
          show (v, v) ∉ t.follows ++ [(u, pk)]
          intro hmem
          rcases List.mem_append.mp hmem with hm | hm
          · exact hinv v hm
          · have hvv : (v, v) = (u, pk) := List.mem_singleton.mp hm
            have h4 : v = u := congrArg Prod.fst hvv
            have h5 : v = pk := congrArg Prod.snd hvv
            exact h2 (h4.symm.trans h5)
    · simp only [follow]
      rw [if_neg (by simpa using h1 : ¬ t.users.contains pk = true)]
      exact hinv v
  · intro t pk u hinv v
    by_cases h1 : pk ∈ t.users
    · simp only [unfollow]
      rw [if_pos (by simpa using h1)]
      show (v, v) ∉ t.follows.filter (fun e => e != (u, pk))
      intro hmem
      exact hinv v (List.mem_filter.mp hmem).1
    · simp only [unfollow]
      rw [if_neg (by simpa using h1 : ¬ t.users.contains pk = true)]
      exact hinv v

/-- C9 witness: user 1 tries to follow themself in `exState`. -/
theorem follow_self_rejected_witness :
    exState.users.contains 1 = true ∧
    (follow exState 1 1
       = (exState, { status := 400, detail := "You cannot follow yourself!" }) ∧
     (∀ t : State, ∀ pk u : Nat,
       (∀ v : Nat, (v, v) ∉ t.follows) →
       ∀ v : Nat, (v, v) ∉ (follow t pk u).1.follows) ∧
     (∀ t : State, ∀ pk u : Nat,
       (∀ v : Nat, (v, v) ∉ t.follows) →
       ∀ v : Nat, (v, v) ∉ (unfollow t pk u).1.follows)) :=
  ⟨by decide, follow_self_rejected exState 1 (by decide)⟩

theorem follow_step_effects (s : State) (A B : Nat)
    (hAB : (A == B) = false) (hB : s.users.contains B = true) :
    (follow s B A).2 = { status := 200, detail := "Successfully followed user." } ∧
    (follow s B A).1.users = s.users ∧
    ((follow s B A).1.follows
      = if s.follows.contains (A, B) = true then s.follows
        else s.follows ++ [(A, B)]) ∧
    notifCount (follow s B A).1 B A "started following you" (Target.user A)
      = notifCount s B A "started following you" (Target.user A) + 1 := by
  have hB' : B ∈ s.users := by simpa using hB
  have hAB2 : ¬ A = B := by simpa using hAB
  by_cases hc : (A, B) ∈ s.follows
  · have hct : s.follows.contains (A, B) = true := by simpa using hc
    simp [follow, notifCount, create_notification, hB', hAB2, hc, hct]
  · have hcf : s.follows.contains (A, B) = false := by simpa using hc
    simp [follow, notifCount, create_notification, hB', hAB2, hc, hcf]

theorem follow_step_contains (s : State) (A B : Nat)
    (hAB : (A == B) = false) (hB : s.users.contains B = true) :
    (follow s B A).1.follows.contains (A, B) = true := by
  have hB' : B ∈ s.users := by simpa using hB
  have hAB2 : ¬ A = B := by simpa using hAB
  by_cases hc : (A, B) ∈ s.follows
  · simp [follow, hB', hAB2, hc, create_notification]
  · simp [follow, hB', hAB2, hc, create_notification]

theorem followIter_users_notifs (A B : Nat) (hAB : (A == B) = false) :
    ∀ (n : Nat) (s : State), s.users.contains B = true →
    (followIter n s B A).users = s.users ∧
    notifCount (followIter n s B A) B A "started following you" (Target.user A)
      = notifCount s B A "started following you" (Target.user A) + n := by
  intro n
  induction n with
  | zero => intro s _; exact ⟨rfl, by simp [followIter]⟩
  | succ m ih =>
    intro s hB
    have step := follow_step_effects s A B hAB hB
    have hB2 : (follow s B A).1.users.contains B = true := by
      rw [step.2.1]; exact hB
    have ihs := ih (follow s B A).1 hB2
    refine ⟨?_, ?_⟩
    · rw [show followIter (m+1) s B A = followIter m (follow s B A).1 B A from rfl,
        ihs.1, step.2.1]
    · rw [show followIter (m+1) s B A = followIter m (follow s B A).1 B A from rfl,
        ihs.2, step.2.2.2]
      omega

theorem followIter_follows (A B : Nat) (hAB : (A == B) = false) :
    ∀ (n : Nat) (s : State), s.users.contains B = true →
    (followIter (n+1) s B A).follows
      = (if s.follows.contains (A, B) = true then s.follows
         else s.follows ++ [(A, B)]) := by
  intro n
  induction n with
  | zero => intro s hB; exact (follow_step_effects s A B hAB hB).2.2.1
  | succ m ih =>
    intro s hB
    have step := follow_step_effects s A B hAB hB
    have hB2 : (follow s B A).1.users.contains B = true := by
      rw [step.2.1]; exact hB
    have hcont := follow_step_contains s A B hAB hB
    rw [show followIter (m+1+1) s B A = followIter (m+1) (follow s B A).1 B A
        from rfl,
      ih (follow s B A).1 hB2, if_pos hcont, step.2.2.1]

/-- C10: with A ≠ B and B resolvable, every successful `follow(A,B)` call
answers 200 and appends one "started following you" notification addressed
to B with actor A — including the calls made after the A→B edge already
exists — so n+1 repeated calls on a fresh store leave n+1 such
notifications while the edge set holds exactly one A→B edge. -/
theorem follow_repeat_notifications
    (s : State) (A B n : Nat) (hAB : A ≠ B) (hB : s.users.contains B = true)
    (h0 : notifCount s B A "started following you" (Target.user A) = 0)
    (e0 : s.follows.contains (A, B) = false) :
    (follow s B A).2 = { status := 200, detail := "Successfully followed user." } ∧
    notifCount (followIter (n+1) s B A) B A "started following you"
      (Target.user A) = n + 1 ∧
    edgeCount (followIter (n+1) s B A) A B = 1 := by
  have hAB' : (A == B) = false := by simpa using hAB
  refine ⟨(follow_step_effects s A B hAB' hB).1, ?_, ?_⟩
  · rw [(followIter_users_notifs A B hAB' (n+1) s hB).2, h0]
    omega
  · rw [edgeCount, followIter_follows A B hAB' n s hB, e0]
    simp [List.filter_append, filter_beq_nil s.follows (A, B) e0]

/-- C10 witness: user 2 follows user 1 twice (n = 1) in `exState`: two
notifications, one edge. -/
theorem follow_repeat_notifications_witness :
    (2 : Nat) ≠ 1 ∧ exState.users.contains 1 = true ∧
    notifCount exState 1 2 "started following you" (Target.user 2) = 0 ∧
    exState.follows.contains (2, 1) = false ∧
    ((follow exState 1 2).2
       = { status := 200, detail := "Successfully followed user." } ∧
     notifCount (followIter 2 exState 1 2) 1 2 "started following you"
       (Target.user 2) = 2 ∧
     edgeCount (followIter 2 exState 1 2) 2 1 = 1) :=
  ⟨by decide, by decide, by decide, by decide,
   follow_repeat_notifications exState 2 1 1 (by decide) (by decide)
     (by decide) (by decide)⟩

/-- C6 witness: user 2 likes post 1 (authored by user 1) of `exState`. -/
theorem like_creates_notification_witness :
    get_post exState 1 = some { id := 1, author := 1, title := "t", content := "c" } ∧
    (1 : Nat) ≠ 2 ∧
    exState.likes.contains (2, 1) = false ∧
    notifCount exState 1 2 "liked your post" (Target.post 1) = 0 ∧
    ((like exState 1 2).2.status = 201 ∧
     notifCount (like exState 1 2).1 1 2 "liked your post" (Target.post 1) = 1) :=
  ⟨by decide, by decide, by decide, by decide,
   like_creates_notification exState 1 2
     { id := 1, author := 1, title := "t", content := "c" }
     (by decide) (by decide) (by decide) (by decide)⟩
